import Mathlib

/-!
Verification development for the `shopify-reviews-server` repository.

The repository consists of two revisions of a serverless review-submission
handler:
* `src/functions/submit-review.js` — the hardened revision (reCAPTCHA
  verification, stars range validation, input sanitization, `metafieldsSet`
  mutation); embedded below in namespace `SubmitReview`.
* `src/unnamed/part_000` — the earliest revision (no validation beyond the
  required-field check, `metafieldUpsert` mutation); embedded in namespace
  `EarlyRev`.

JavaScript values flowing through the handlers are modelled by the `Json`
type below; JavaScript `undefined` is modelled as `Option.none` at property
accesses.  Machine-level caveats of the model: JSON numeric literals are
modelled as integers (the handlers only ever consume integral numbers;
non-integral numerics reach the code as strings in all claims), and string
escapes `\uXXXX` are not decoded by the embedded `JSON.parse`.
-/

/-- A JavaScript/JSON value.  `undefined` is represented by `Option.none`
where it can occur (absent properties, absent environment variables). -/
inductive Json where
  | jnull : Json
  | jbool : Bool → Json
  | jnum : Int → Json
  | jstr : String → Json
  | jarr : List Json → Json
  | jobj : List (String × Json) → Json

/-- Exactly the JS `null` value (destructuring from it throws). -/
def Json.isNull : Json → Bool
  | Json.jnull => true
  | _ => false

/-- JavaScript truthiness of a defined value. -/
def truthy : Json → Bool
  | Json.jnull => false
  | Json.jbool b => b
  | Json.jnum n => n ≠ 0
  | Json.jstr s => s ≠ ""
  | Json.jarr _ => true
  | Json.jobj _ => true

/-- JavaScript truthiness of a possibly-`undefined` value. -/
def truthyO : Option Json → Bool
  | none => false
  | some j => truthy j

/-- `a || b` on a possibly-`undefined` left operand. -/
def jsOrU (v : Option Json) (d : Json) : Json :=
  match v with
  | none => d
  | some j => if truthy j then j else d

/-- `a || b` on defined values. -/
def jsOr (v d : Json) : Json := if truthy v then v else d

/-- Property read `v[k]` on a non-null value: object key lookup; strings and
arrays expose `length`; other primitives have no own properties of interest.
Absent property = `undefined` (`none`). -/
def jsGet (v : Json) (k : String) : Option Json :=
  match v with
  | Json.jobj fs => (fs.find? (fun p => p.1 = k)).map (fun p => p.2)
  | Json.jstr s => if k = "length" then some (Json.jnum s.length) else none
  | Json.jarr l => if k = "length" then some (Json.jnum l.length) else none
  | _ => none

/-- Non-optional property access `v.k`: throws a `TypeError` when `v` is
`null` (JS also throws on `undefined`; callers below never reach that case
with `undefined`). -/
def jsGetE (v : Json) (k : String) : Except String (Option Json) :=
  match v with
  | Json.jnull =>
    Except.error ("TypeError: Cannot read properties of null (reading " ++ k ++ ")")
  | _ => Except.ok (jsGet v k)

/-- Optional chaining `v?.k` on a possibly-`undefined`/null base. -/
def jsChain (v : Option Json) (k : String) : Option Json :=
  match v with
  | none => none
  | some Json.jnull => none
  | some j => jsGet j k

/-- `x?.length > 0` where `x` is a possibly-undefined value: arrays and
strings have a numeric `length`; for anything else the comparison is
`undefined > 0`, which is `false` in JS. -/
def jsLenGt0 (v : Option Json) : Bool :=
  match v with
  | some (Json.jarr l) => 0 < l.length
  | some (Json.jstr s) => 0 < s.length
  | _ => false

/-- JS whitespace characters relevant to `trim` / `parseInt`. -/
def isJsWs (c : Char) : Bool :=
  c = ' ' || c = '\t' || c = '\n' || c = '\r'

/-- `String.prototype.trim`: strip leading and trailing whitespace. -/
def jsTrim (s : String) : String :=
  String.mk (((s.data.dropWhile isJsWs).reverse.dropWhile isJsWs).reverse)

mutual
/-- JavaScript `ToString` on the values representable in this model
(`[object Object]` for objects, comma-joined elements for arrays). -/
def jsToString : Json → String
  | Json.jnull => "null"
  | Json.jbool true => "true"
  | Json.jbool false => "false"
  | Json.jnum n => toString n
  | Json.jstr s => s
  | Json.jarr l => jsToStringList l
  | Json.jobj _ => "[object Object]"

/-- Array `ToString`: elements joined with commas (null elements render
empty). -/
def jsToStringList : List Json → String
  | [] => ""
  | [Json.jnull] => ""
  | [j] => jsToString j
  | Json.jnull :: rest => "," ++ jsToStringList rest
  | j :: rest => jsToString j ++ "," ++ jsToStringList rest
end

/-- Digits-string folding helper for `parseInt`. -/
def digitsToNat (ds : List Char) : Nat :=
  ds.foldl (fun a c => a * 10 + (c.toNat - 48)) 0

/-- JavaScript `parseInt(s, 10)`: skip leading whitespace, optional sign,
longest decimal-digit prefix; `none` models `NaN`. -/
def jsParseInt (s : String) : Option Int :=
  let cs := s.data.dropWhile isJsWs
  let signAndRest : Int × List Char :=
    match cs with
    | '-' :: rest => (-1, rest)
    | '+' :: rest => (1, rest)
    | other => (1, other)
  let ds := signAndRest.2.takeWhile Char.isDigit
  if ds.isEmpty then none
  else some (signAndRest.1 * (digitsToNat ds : Int))

/-- `/^\d+$/` — one or more decimal digits and nothing else. -/
def isDigits (s : String) : Bool :=
  !s.isEmpty && s.data.all Char.isDigit

/-- Drop leading JSON whitespace. -/
def skipWs (cs : List Char) : List Char := cs.dropWhile isJsWs

/-- Decode one string-escape character (`\uXXXX` is out of scope for this
model and reported as a parse error). -/
def jsonEscape (c : Char) : Except String Char :=
  if c = '"' then Except.ok '"'
  else if c = '\\' then Except.ok '\\'
  else if c = '/' then Except.ok '/'
  else if c = 'n' then Except.ok '\n'
  else if c = 't' then Except.ok '\t'
  else if c = 'r' then Except.ok '\r'
  else if c = 'b' then Except.ok (Char.ofNat 8)
  else if c = 'f' then Except.ok (Char.ofNat 12)
  else Except.error "Unsupported escape in JSON string"

/-- Parse the body of a JSON string after the opening quote; returns the
content characters and the remaining input. -/
def parseJsonStr : List Char → Except String (List Char × List Char)
  | [] => Except.error "Unterminated string in JSON"
  | '"' :: rest => Except.ok ([], rest)
  | '\\' :: rest =>
    match rest with
    | [] => Except.error "Unterminated string in JSON"
    | e :: rest2 =>
      match jsonEscape e with
      | Except.error m => Except.error m
      | Except.ok c =>
        match parseJsonStr rest2 with
        | Except.error m => Except.error m
        | Except.ok (cs, r) => Except.ok (c :: cs, r)
  | c :: rest =>
    match parseJsonStr rest with
    | Except.error m => Except.error m
    | Except.ok (cs, r) => Except.ok (c :: cs, r)

/-- Parse a JSON integer (optional minus, digit run); non-integral numbers
(fraction or exponent part) are outside this model and rejected. -/
def parseJsonNum (cs : List Char) : Except String (Json × List Char) :=
  let signAndRest : Int × List Char :=
    match cs with
    | '-' :: rest => (-1, rest)
    | other => (1, other)
  let ds := signAndRest.2.takeWhile Char.isDigit
  let rest := signAndRest.2.drop ds.length
  if ds.isEmpty then Except.error "Unexpected token in JSON"
  else
    match rest with
    | '.' :: _ => Except.error "Non-integral JSON number outside model"
    | 'e' :: _ => Except.error "Non-integral JSON number outside model"
    | 'E' :: _ => Except.error "Non-integral JSON number outside model"
    | _ => Except.ok (Json.jnum (signAndRest.1 * (digitsToNat ds : Int)), rest)

mutual
/-- Fuel-indexed recursive-descent parser for one JSON value. -/
def parseJsonValue : Nat → List Char → Except String (Json × List Char)
  | 0, _ => Except.error "JSON input too deeply nested"
  | Nat.succ n, cs =>
    match skipWs cs with
    | [] => Except.error "Unexpected end of JSON input"
    | 'n' :: 'u' :: 'l' :: 'l' :: rest => Except.ok (Json.jnull, rest)
    | 't' :: 'r' :: 'u' :: 'e' :: rest => Except.ok (Json.jbool true, rest)
    | 'f' :: 'a' :: 'l' :: 's' :: 'e' :: rest => Except.ok (Json.jbool false, rest)
    | '"' :: rest =>
      match parseJsonStr rest with
      | Except.error m => Except.error m
      | Except.ok (content, r) => Except.ok (Json.jstr (String.mk content), r)
    | '[' :: rest =>
      match skipWs rest with
      | ']' :: r => Except.ok (Json.jarr [], r)
      | other => parseJsonItems n other []
    | '{' :: rest =>
      match skipWs rest with
      | '}' :: r => Except.ok (Json.jobj [], r)
      | other => parseJsonMembers n other []
    | other => parseJsonNum other

/-- Array elements after `[`, accumulating parsed items. -/
def parseJsonItems : Nat → List Char → List Json → Except String (Json × List Char)
  | 0, _, _ => Except.error "JSON input too deeply nested"
  | Nat.succ n, cs, acc =>
    match parseJsonValue n cs with
    | Except.error m => Except.error m
    | Except.ok (v, rest) =>
      match skipWs rest with
      | ',' :: r => parseJsonItems n r (acc ++ [v])
      | ']' :: r => Except.ok (Json.jarr (acc ++ [v]), r)
      | _ => Except.error "Expected comma or closing bracket in JSON array"

/-- Object members after `{`, accumulating parsed key-value pairs. -/
def parseJsonMembers : Nat → List Char → List (String × Json) →
    Except String (Json × List Char)
  | 0, _, _ => Except.error "JSON input too deeply nested"
  | Nat.succ n, cs, acc =>
    match skipWs cs with
    | '"' :: rest =>
      match parseJsonStr rest with
      | Except.error m => Except.error m
      | Except.ok (key, r1) =>
        match skipWs r1 with
        | ':' :: r2 =>
          match parseJsonValue n r2 with
          | Except.error m => Except.error m
          | Except.ok (v, rest2) =>
            match skipWs rest2 with
            | ',' :: r3 => parseJsonMembers n r3 (acc ++ [(String.mk key, v)])
            | '}' :: r3 => Except.ok (Json.jobj (acc ++ [(String.mk key, v)]), r3)
            | _ => Except.error "Expected comma or closing brace in JSON object"
        | _ => Except.error "Expected colon in JSON object"
    | _ => Except.error "Expected string key in JSON object"
end

/-- The host runtime's `JSON.parse` on a string, within the integral-number
fragment described above: parse one value and require only whitespace after
it. -/
def jsonParse (s : String) : Except String Json :=
  match parseJsonValue (s.length + 1) s.data with
  | Except.error m => Except.error m
  | Except.ok (v, rest) =>
    if (skipWs rest).isEmpty then Except.ok v
    else Except.error "Unexpected non-whitespace character after JSON"

/-- `JSON.parse(v)` on an arbitrary JS value: the argument is coerced with
`ToString` first. -/
def jsonParseValue (v : Json) : Except String Json := jsonParse (jsToString v)

/-- Array spread `[...v]`: arrays spread to their elements, strings to their
characters; any other value is not iterable and throws. -/
def jsSpread (v : Json) : Except String (List Json) :=
  match v with
  | Json.jarr l => Except.ok l
  | Json.jstr s => Except.ok (s.data.map (fun c => Json.jstr (String.mk [c])))
  | _ => Except.error "TypeError: existingReviews is not iterable"

/-- An incoming HTTP event as delivered by the hosting platform. -/
structure Event where
  httpMethod : String
  body : Option String

/-- `JSON.parse(event.body)` coerces an undefined body to the string
`"undefined"` before parsing (which then fails). -/
def evBodyStr (ev : Event) : String :=
  match ev.body with
  | none => "undefined"
  | some s => s

/-- An HTTP response: status code, headers, and the JS value serialized into
the body (`OPTIONS` uses the raw empty string). -/
structure Response where
  statusCode : Nat
  headers : List (String × String)
  body : Json

/-- Truthiness of an environment variable (`undefined` or empty = falsy). -/
def envTruthy (v : Option String) : Bool :=
  match v with
  | none => false
  | some s => s ≠ ""

/-- `v || default` on an environment variable. -/
def strOr (v : Option String) (d : String) : String :=
  match v with
  | none => d
  | some s => if s = "" then d else s

/-- Template-literal interpolation of a possibly-undefined string. -/
def envStr (v : Option String) : String :=
  match v with
  | none => "undefined"
  | some s => s

/-- The observable part of a settled `fetch` response: the `ok` flag,
status data, and the outcome of `response.json()`. -/
structure HttpResp where
  ok : Bool
  status : Nat
  statusText : String
  jsonBody : Except String Json

/-- The upstream call outcomes observed by one invocation of the hardened
handler: the reCAPTCHA verification (fetch + `.json()` merged), the two
platform calls, and the clock reading for `new Date().toISOString()`.

The verification outcome is a function of the requested URL: the code builds
that URL from `RECAPTCHA_SECRET_KEY` and the client token, and the HTTP
client's failure messages embed the full requested URL (node-fetch v2 throws
`request to <url> failed, reason: ...` on transport errors and
`invalid json response body at <url> reason: ...` on parse errors), so the
error string a failed verification delivers genuinely depends on the secret.
The two platform calls are plain outcomes: their URLs contain only the shop
domain and API version, and the admin token travels in a header that the
client never echoes into an error message. -/
structure Upstream where
  recaptcha : String → Except String Json
  fetchResp : Except String HttpResp
  updateResp : Except String HttpResp
  now : String

/-- Which outbound collaborators the handler actually invoked, and the exact
review list handed to the Review Store Writer.  `recaptchaUrl` records the
verification URL the code constructs (it embeds the secret — outbound only). -/
structure Trace where
  recaptchaUrl : Option String
  fetchCalled : Bool
  updateArg : Option (List Json)

namespace SubmitReview

/-- Environment variables read at the top of `submit-review.js`. -/
structure EnvVars where
  ALLOWED_ORIGIN : Option String
  SHOPIFY_API_VERSION : Option String
  RECAPTCHA_SECRET_KEY : Option String
  ADMIN_API_ACCESS_TOKEN : Option String
  SHOP : Option String

def allowedOrigin (e : EnvVars) : String := strOr e.ALLOWED_ORIGIN "https://mamamary.io"

def shopifyApiVersion (e : EnvVars) : String := strOr e.SHOPIFY_API_VERSION "2024-10"

def corsHeaders (e : EnvVars) : List (String × String) :=
  [("Access-Control-Allow-Origin", allowedOrigin e),
   ("Access-Control-Allow-Methods", "POST, OPTIONS"),
   ("Access-Control-Allow-Headers", "Content-Type")]

/-- The environment check at line 94: `!adminApiAccessToken || !shop ||
!recaptchaSecret`, negated. -/
def envVarsOk (e : EnvVars) : Bool :=
  envTruthy e.ADMIN_API_ACCESS_TOKEN && envTruthy e.SHOP &&
    envTruthy e.RECAPTCHA_SECRET_KEY

/-- `sanitizeInput` from `submit-review.js` lines 12-23.  As stored in the
repository, the replacement object maps each of the five matched characters
to itself (the HTML entities appear already decoded in the file text, and
the apostrophe entry is not even lexically valid JavaScript), so the
function is embedded exactly as written: a per-character identity
replacement followed by `trim`. -/
def sanitizeInput (input : Json) : Json :=
  match input with
  | Json.jstr s =>
    Json.jstr (jsTrim (String.mk (s.data.flatMap (fun c =>
      (if c = '<' || c = '>' || c = Char.ofNat 34 || c = Char.ofNat 39 || c = '&'
       then String.mk [c] else String.mk [c]).data))))
  | v => v

/-- `fetchReviews(productId, shop, token)` from `submit-review.js` lines
203-251.  `productId.match(/^\d+$/)` throws a `TypeError` when `productId`
is not a string; a non-digits string throws the format error; otherwise the
HTTP outcome is consumed, the metafield value extracted, and its text parsed
(absent/falsy value gives `[]`). -/
def fetchReviews (productId : Json) (u : Upstream) : Except String Json :=
  match productId with
  | Json.jstr s =>
    if isDigits s then
      match u.fetchResp with
      | Except.error m => Except.error m
      | Except.ok resp =>
        if !resp.ok then
          Except.error ("Failed to fetch reviews: " ++ toString resp.status ++ " " ++ resp.statusText)
        else
          match resp.jsonBody with
          | Except.error m => Except.error m
          | Except.ok data =>
            let metafield := jsChain (jsChain (jsChain (some data) "data") "product") "metafield"
            let mv := jsChain metafield "value"
            if truthyO mv then jsonParseValue (mv.getD Json.jnull)
            else Except.ok (Json.jarr [])
    else Except.error "Invalid productId format"
  | _ => Except.error "TypeError: productId.match is not a function"

/-- `updateReviews(productId, reviews, shop, token)` from `submit-review.js`
lines 254-319: same productId format check, then the `metafieldsSet`
mutation; the serialized review list travels only outbound, and the
platform's JSON response (or the transport/HTTP error) is returned. -/
def updateReviews (productId : Json) (reviews : List Json) (u : Upstream) :
    Except String Json :=
  match productId with
  | Json.jstr s =>
    if isDigits s then
      match u.updateResp with
      | Except.error m => Except.error m
      | Except.ok resp =>
        if !resp.ok then
          Except.error ("Failed to update reviews: " ++ toString resp.status ++ " " ++ resp.statusText)
        else resp.jsonBody
    else Except.error "Invalid productId format"
  | _ => Except.error "TypeError: productId.match is not a function"

/-- The handler body of `submit-review.js`, parameterized by the parts of
the configuration it consumes: the CORS header set, the result of the
environment check, and the raw secret string interpolated into the
verification URL.  Returns the settled promise (`Except.error` = the
invocation rejects with an uncaught exception) together with the outbound
trace. -/
def handlerAux (ev : Event) (cors : List (String × String)) (envOk : Bool)
    (secretStr : String) (u : Upstream) : Except String Response × Trace :=
  if ev.httpMethod = "OPTIONS" then
    (Except.ok ⟨204, cors, Json.jstr ""⟩, ⟨none, false, none⟩)
  else if ev.httpMethod ≠ "POST" then
    (Except.ok ⟨405, cors, Json.jobj [("error", Json.jstr "Method Not Allowed")]⟩,
     ⟨none, false, none⟩)
  else
    match jsonParse (evBodyStr ev) with
    | Except.error m =>
      (Except.ok ⟨400, cors, Json.jobj [("error", Json.jstr "Invalid JSON body"),
        ("details", Json.jstr m)]⟩, ⟨none, false, none⟩)
    | Except.ok payload =>
      if payload.isNull then
        (Except.error "TypeError: Cannot destructure property of null payload",
         ⟨none, false, none⟩)
      else
        let productId := jsGet payload "productId"
        let name := jsGet payload "name"
        let text := jsGet payload "text"
        let stars := jsGet payload "stars"
        let recaptchaResponse := jsGet payload "recaptchaResponse"
        if !(truthyO productId && truthyO name && truthyO text && truthyO stars &&
            truthyO recaptchaResponse) then
          (Except.ok ⟨400, cors, Json.jobj [("error", Json.jstr "Missing required fields")]⟩,
           ⟨none, false, none⟩)
        else
          match jsParseInt (jsToString (stars.getD Json.jnull)) with
          | none =>
            (Except.ok ⟨400, cors, Json.jobj [("error",
              Json.jstr "Stars must be a number between 1 and 5")]⟩, ⟨none, false, none⟩)
          | some starsNum =>
            if starsNum < 1 ∨ 5 < starsNum then
              (Except.ok ⟨400, cors, Json.jobj [("error",
                Json.jstr "Stars must be a number between 1 and 5")]⟩, ⟨none, false, none⟩)
            else if !envOk then
              (Except.ok ⟨500, cors, Json.jobj [("error",
                Json.jstr "Server misconfiguration: Missing environment variables")]⟩,
               ⟨none, false, none⟩)
            else
              let recaptchaUrl :=
                "https://www.google.com/recaptcha/api/siteverify?secret=" ++ secretStr ++
                  "&response=" ++ jsToString (recaptchaResponse.getD Json.jnull)
              match u.recaptcha recaptchaUrl with
              | Except.error m =>
                (Except.ok ⟨500, cors, Json.jobj [("error", Json.jstr "Failed to verify reCAPTCHA"),
                  ("details", Json.jstr m)]⟩, ⟨some recaptchaUrl, false, none⟩)
              | Except.ok recaptchaData =>
                match jsGetE recaptchaData "success" with
                | Except.error m =>
                  (Except.ok ⟨500, cors, Json.jobj [("error", Json.jstr "Failed to verify reCAPTCHA"),
                    ("details", Json.jstr m)]⟩, ⟨some recaptchaUrl, false, none⟩)
                | Except.ok successV =>
                  if !truthyO successV then
                    (Except.ok ⟨400, cors, Json.jobj [("error",
                      Json.jstr "reCAPTCHA verification failed"),
                      ("details", jsOrU (jsGet recaptchaData "error-codes")
                        (Json.jstr "Invalid reCAPTCHA response"))]⟩,
                     ⟨some recaptchaUrl, false, none⟩)
                  else
                    let sanitizedName := sanitizeInput (name.getD Json.jnull)
                    let sanitizedText := sanitizeInput (text.getD Json.jnull)
                    match fetchReviews (productId.getD Json.jnull) u with
                    | Except.error m =>
                      (Except.ok ⟨500, cors, Json.jobj [("error",
                        Json.jstr "An unexpected error occurred"), ("details", Json.jstr m)]⟩,
                       ⟨some recaptchaUrl, true, none⟩)
                    | Except.ok existingReviews =>
                      match jsSpread (jsOr existingReviews (Json.jarr [])) with
                      | Except.error m =>
                        (Except.ok ⟨500, cors, Json.jobj [("error",
                          Json.jstr "An unexpected error occurred"), ("details", Json.jstr m)]⟩,
                         ⟨some recaptchaUrl, true, none⟩)
                      | Except.ok spreadElems =>
                        let newReview := Json.jobj [("name", sanitizedName),
                          ("text", sanitizedText), ("stars", Json.jnum starsNum),
                          ("status", Json.jstr "pending"), ("date", Json.jstr u.now)]
                        let updatedReviews := spreadElems ++ [newReview]
                        match updateReviews (productId.getD Json.jnull) updatedReviews u with
                        | Except.error m =>
                          (Except.ok ⟨500, cors, Json.jobj [("error",
                            Json.jstr "An unexpected error occurred"), ("details", Json.jstr m)]⟩,
                           ⟨some recaptchaUrl, true, some updatedReviews⟩)
                        | Except.ok updateResult =>
                          match jsGetE updateResult "errors" with
                          | Except.error m =>
                            (Except.ok ⟨500, cors, Json.jobj [("error",
                              Json.jstr "An unexpected error occurred"), ("details", Json.jstr m)]⟩,
                             ⟨some recaptchaUrl, true, some updatedReviews⟩)
                          | Except.ok errsO =>
                            if jsLenGt0 errsO then
                              (Except.ok ⟨500, cors, Json.jobj [("error",
                                Json.jstr "Failed to update reviews"),
                                ("details", errsO.getD Json.jnull)]⟩,
                               ⟨some recaptchaUrl, true, some updatedReviews⟩)
                            else
                              let userErrsO := jsChain (jsChain (jsGet updateResult "data")
                                "metafieldsSet") "userErrors"
                              if jsLenGt0 userErrsO then
                                (Except.ok ⟨500, cors, Json.jobj [("error",
                                  Json.jstr "Failed to update reviews"),
                                  ("details", userErrsO.getD Json.jnull)]⟩,
                                 ⟨some recaptchaUrl, true, some updatedReviews⟩)
                              else
                                (Except.ok ⟨200, cors, Json.jobj [("message",
                                  Json.jstr "Review submitted successfully")]⟩,
                                 ⟨some recaptchaUrl, true, some updatedReviews⟩)

/-- `exports.handler` of `submit-review.js`: the handler body applied to the
configuration read from the process environment. -/
def handler (ev : Event) (e : EnvVars) (u : Upstream) : Except String Response × Trace :=
  handlerAux ev (corsHeaders e) (envVarsOk e) (envStr e.RECAPTCHA_SECRET_KEY) u

end SubmitReview

namespace EarlyRev

/-- The upstream call outcomes for the earliest revision (`part_000`): its
`fetchReviews`/`updateReviews` never inspect `response.ok`, so each call is
just `fetch` + `.json()` merged into one outcome, plus the clock reading. -/
structure Upstream0 where
  fetchData : Except String Json
  updateData : Except String Json
  now : String

/-- Environment variables read by `part_000`. -/
structure EnvVars0 where
  ADMIN_API_ACCESS_TOKEN : Option String
  SHOP : Option String

/-- `corsHeaders()` from `part_000`: the origin is the hardcoded constant. -/
def corsHeaders : List (String × String) :=
  [("Access-Control-Allow-Origin", "https://mamamary.io"),
   ("Access-Control-Allow-Methods", "POST, OPTIONS"),
   ("Access-Control-Allow-Headers", "Content-Type")]

/-- `fetchReviews` from `part_000` lines 105-131: no productId validation,
no HTTP status check; returns `null` when the metafield is absent, else
parses `metafield.value || '[]'`. -/
def fetchReviews (productId : Json) (u : Upstream0) : Except String Json :=
  match u.fetchData with
  | Except.error m => Except.error m
  | Except.ok data =>
    let metafield := jsChain (jsChain (jsChain (some data) "data") "product") "metafield"
    if !truthyO metafield then Except.ok Json.jnull
    else jsonParseValue (jsOrU (jsChain metafield "value") (Json.jstr "[]"))

/-- `updateReviews` from `part_000` lines 133-172: issues the
`metafieldUpsert` mutation and returns `response.json()` unconditionally. -/
def updateReviews (productId : Json) (reviews : List Json) (u : Upstream0) :
    Except String Json :=
  u.updateData

/-- `handler` from `part_000` lines 6-93. -/
def handler (ev : Event) (e : EnvVars0) (u : Upstream0) : Except String Response :=
  if ev.httpMethod = "OPTIONS" then
    Except.ok ⟨204, corsHeaders, Json.jstr ""⟩
  else if ev.httpMethod ≠ "POST" then
    Except.ok ⟨405, corsHeaders, Json.jobj [("error", Json.jstr "Method Not Allowed")]⟩
  else
    match jsonParse (evBodyStr ev) with
    | Except.error _ =>
      Except.ok ⟨400, corsHeaders, Json.jobj [("error", Json.jstr "Invalid JSON body")]⟩
    | Except.ok payload =>
      if payload.isNull then
        Except.error "TypeError: Cannot destructure property of null payload"
      else
        let productId := jsGet payload "productId"
        let name := jsGet payload "name"
        let text := jsGet payload "text"
        let stars := jsGet payload "stars"
        if !(truthyO productId && truthyO name && truthyO text && truthyO stars) then
          Except.ok ⟨400, corsHeaders, Json.jobj [("error", Json.jstr "Missing required fields")]⟩
        else if !(envTruthy e.ADMIN_API_ACCESS_TOKEN && envTruthy e.SHOP) then
          Except.ok ⟨500, corsHeaders, Json.jobj [("error", Json.jstr "Server misconfiguration")]⟩
        else
          match fetchReviews (productId.getD Json.jnull) u with
          | Except.error m =>
            Except.ok ⟨500, corsHeaders, Json.jobj [("error", Json.jstr m)]⟩
          | Except.ok existingReviews =>
            match jsSpread (jsOr existingReviews (Json.jarr [])) with
            | Except.error m =>
              Except.ok ⟨500, corsHeaders, Json.jobj [("error", Json.jstr m)]⟩
            | Except.ok spreadElems =>
              let newReview := Json.jobj [("name", name.getD Json.jnull),
                ("text", text.getD Json.jnull), ("stars", stars.getD Json.jnull),
                ("status", Json.jstr "pending"), ("date", Json.jstr u.now)]
              match updateReviews (productId.getD Json.jnull)
                  (spreadElems ++ [newReview]) u with
              | Except.error m =>
                Except.ok ⟨500, corsHeaders, Json.jobj [("error", Json.jstr m)]⟩
              | Except.ok updateResult =>
                match jsGetE updateResult "errors" with
                | Except.error m =>
                  Except.ok ⟨500, corsHeaders, Json.jobj [("error", Json.jstr m)]⟩
                | Except.ok errsO =>
                  if truthyO errsO then
                    Except.ok ⟨500, corsHeaders, Json.jobj [("error", errsO.getD Json.jnull)]⟩
                  else
                    Except.ok ⟨200, corsHeaders, Json.jobj [("message",
                      Json.jstr "Review submitted successfully")]⟩

end EarlyRev

namespace Scenario

/-- A fully valid POST event (digit-string productId). -/
def evOk : Event :=
  ⟨"POST", some "\x7b\"productId\": \"100\", \"name\": \"Jo\", \"text\": \"Great product\", \"stars\": 5, \"recaptchaResponse\": \"tok\"\x7d"⟩

/-- The same submission but with `productId` supplied as a JSON number. -/
def evNumId : Event :=
  ⟨"POST", some "\x7b\"productId\": 100, \"name\": \"Jo\", \"text\": \"Great product\", \"stars\": 5, \"recaptchaResponse\": \"tok\"\x7d"⟩

/-- The same submission with `stars` supplied as the string `"3.7"`. -/
def evStars37 : Event :=
  ⟨"POST", some "\x7b\"productId\": \"100\", \"name\": \"Jo\", \"text\": \"Great product\", \"stars\": \"3.7\", \"recaptchaResponse\": \"tok\"\x7d"⟩

/-- A POST whose body is the JSON literal `null`. -/
def evNullBody : Event := ⟨"POST", some "null"⟩

/-- A fully populated environment. -/
def envOk : SubmitReview.EnvVars :=
  ⟨some "https://mamamary.io", some "2024-10", some "rc-secret-value",
   some "shpat-token-value", some "example.myshopify.com"⟩

/-- An environment for the earliest revision. -/
def envOk0 : EarlyRev.EnvVars0 := ⟨some "shpat-token-value", some "example.myshopify.com"⟩

/-- Platform read response with no `custom.reviews` metafield yet. -/
def fetchDataEmpty : Json :=
  Json.jobj [("data", Json.jobj [("product", Json.jobj [("metafield", Json.jnull)])])]

/-- Platform read response whose metafield holds two stored reviews. -/
def fetchDataTwo : Json :=
  Json.jobj [("data", Json.jobj [("product", Json.jobj [("metafield",
    Json.jobj [("id", Json.jstr "gid://shopify/Metafield/1"),
      ("value", Json.jstr "[\x7b\"name\": \"A\", \"stars\": 4\x7d, \x7b\"name\": \"B\", \"stars\": 2\x7d]")])])])]

/-- Platform read response whose metafield value is the JSON text `null`. -/
def fetchDataNullValue : Json :=
  Json.jobj [("data", Json.jobj [("product", Json.jobj [("metafield",
    Json.jobj [("id", Json.jstr "gid://shopify/Metafield/1"),
      ("value", Json.jstr "null")])])])]

/-- Platform write response with empty `userErrors`. -/
def updateDataOk : Json :=
  Json.jobj [("data", Json.jobj [("metafieldsSet", Json.jobj [("metafields", Json.jarr []),
    ("userErrors", Json.jarr [])])])]

/-- A successful reCAPTCHA verification body. -/
def recaptchaOk : Json := Json.jobj [("success", Json.jbool true)]

/-- Upstream outcomes for a fully successful invocation with no prior
reviews. -/
def upstreamOk : Upstream :=
  ⟨fun _ => Except.ok recaptchaOk, Except.ok ⟨true, 200, "OK", Except.ok fetchDataEmpty⟩,
   Except.ok ⟨true, 200, "OK", Except.ok updateDataOk⟩, "2026-01-01T00:00:00.000Z"⟩

/-- Upstream outcomes for a fully successful invocation with two prior
reviews. -/
def upstreamTwo : Upstream :=
  ⟨fun _ => Except.ok recaptchaOk, Except.ok ⟨true, 200, "OK", Except.ok fetchDataTwo⟩,
   Except.ok ⟨true, 200, "OK", Except.ok updateDataOk⟩, "2026-01-01T00:00:00.000Z"⟩

/-- Upstream outcomes where the stored metafield value decodes to `null`. -/
def upstreamNullValue : Upstream :=
  ⟨fun _ => Except.ok recaptchaOk, Except.ok ⟨true, 200, "OK", Except.ok fetchDataNullValue⟩,
   Except.ok ⟨true, 200, "OK", Except.ok updateDataOk⟩, "2026-01-01T00:00:00.000Z"⟩

end Scenario

/-- Status code of a settled invocation (`none` = the promise rejected). -/
def respStatus : Except String Response → Option Nat
  | Except.ok r => some r.statusCode
  | Except.error _ => none

/-- Whether the invocation settled with a response at all. -/
def settledOk : Except String Response → Bool
  | Except.ok _ => true
  | Except.error _ => false

/-- The response's serialized body carries an `error` key. -/
def hasErrorKey : Json → Bool
  | Json.jobj fs => fs.any (fun p => p.1 = "error")
  | _ => false

/-- Whether a request body parses to the JSON literal `null` (the one body
shape whose destructuring throws outside every try block). -/
def parsesToNull (s : String) : Bool :=
  match jsonParse s with
  | Except.ok p => p.isNull
  | Except.error _ => false

/-- Settled with a response whose body carries an `error` key on every
non-2xx status (`False` when the promise rejected). -/
def respondsWithErrorKey (x : Except String Response) : Prop :=
  match x with
  | Except.error _ => False
  | Except.ok r => r.statusCode ≠ 200 → r.statusCode ≠ 204 → hasErrorKey r.body = true

/-- The same valid submission with `stars` as the JSON number `6`. -/
def Scenario.evStars6 : Event :=
  ⟨"POST", some "\x7b\"productId\": \"100\", \"name\": \"Jo\", \"text\": \"Great product\", \"stars\": 6, \"recaptchaResponse\": \"tok\"\x7d"⟩

/-- An upsert-shape write response carrying one field-level user error. -/
def Scenario.updateDataUpsertUserErrors : Json :=
  Json.jobj [("data", Json.jobj [("metafieldUpsert", Json.jobj [("metafield", Json.jnull),
    ("userErrors", Json.jarr [Json.jobj [("field", Json.jstr "value"),
      ("message", Json.jstr "Invalid metafield value")]])])])]

/-- Early-revision upstream outcomes whose write reports a user error. -/
def Scenario.upstream0UserErrors : EarlyRev.Upstream0 :=
  ⟨Except.ok Scenario.fetchDataEmpty, Except.ok Scenario.updateDataUpsertUserErrors,
    "2026-01-01T00:00:00.000Z"⟩

/-- A metafieldsSet-shape write response carrying one field-level user
error and no transport-level errors. -/
def Scenario.updateDataSetUserErrors : Json :=
  Json.jobj [("data", Json.jobj [("metafieldsSet", Json.jobj [("metafields", Json.jarr []),
    ("userErrors", Json.jarr [Json.jobj [("field", Json.jstr "value"),
      ("message", Json.jstr "Invalid metafield value")]])])])]

/-- Hardened-revision upstream outcomes whose write reports a user error. -/
def Scenario.upstreamSetUserErrors : Upstream :=
  ⟨fun _ => Except.ok Scenario.recaptchaOk, Except.ok ⟨true, 200, "OK", Except.ok Scenario.fetchDataEmpty⟩,
   Except.ok ⟨true, 200, "OK", Except.ok Scenario.updateDataSetUserErrors⟩,
   "2026-01-01T00:00:00.000Z"⟩

/-- A failed reCAPTCHA verification body with one error code. -/
def Scenario.recaptchaFail : Json :=
  Json.jobj [("success", Json.jbool false),
    ("error-codes", Json.jarr [Json.jstr "invalid-input-response"])]

/-- Upstream outcomes whose verification reports failure. -/
def Scenario.upstreamRecaptchaFail : Upstream :=
  ⟨fun _ => Except.ok Scenario.recaptchaFail,
   Except.ok ⟨true, 200, "OK", Except.ok Scenario.fetchDataEmpty⟩,
   Except.ok ⟨true, 200, "OK", Except.ok Scenario.updateDataOk⟩,
   "2026-01-01T00:00:00.000Z"⟩

/-- The valid submission with `stars` equal to the falsy number `0`. -/
def Scenario.evStars0 : Event :=
  ⟨"POST", some "\x7b\"productId\": \"100\", \"name\": \"Jo\", \"text\": \"Great product\", \"stars\": 0, \"recaptchaResponse\": \"tok\"\x7d"⟩

/-- Platform read response whose metafield value is not valid JSON text. -/
def Scenario.fetchDataBadValue : Json :=
  Json.jobj [("data", Json.jobj [("product", Json.jobj [("metafield",
    Json.jobj [("id", Json.jstr "gid://shopify/Metafield/1"),
      ("value", Json.jstr "not json")])])])]

/-- Upstream outcomes with the malformed stored value. -/
def Scenario.upstreamBadValue : Upstream :=
  ⟨fun _ => Except.ok Scenario.recaptchaOk,
   Except.ok ⟨true, 200, "OK", Except.ok Scenario.fetchDataBadValue⟩,
   Except.ok ⟨true, 200, "OK", Except.ok Scenario.updateDataOk⟩,
   "2026-01-01T00:00:00.000Z"⟩

/-- node-fetch v2's transport-failure behavior: the thrown `FetchError`'s
message embeds the full requested URL. -/
def nodeFetchTransportFail (url : String) : Except String Json :=
  Except.error ("request to " ++ url ++ " failed, reason: getaddrinfo ENOTFOUND www.google.com")

/-- Upstream outcomes where the verification call fails at the transport
level with node-fetch's URL-echoing error message. -/
def Scenario.upstreamVerifyNetFail : Upstream :=
  ⟨nodeFetchTransportFail,
   Except.ok ⟨true, 200, "OK", Except.ok Scenario.fetchDataEmpty⟩,
   Except.ok ⟨true, 200, "OK", Except.ok Scenario.updateDataOk⟩,
   "2026-01-01T00:00:00.000Z"⟩

example : jsonParse "null" = Except.ok Json.jnull := rfl
example : jsonParse " [1, 2] " = Except.ok (Json.jarr [Json.jnum 1, Json.jnum 2]) := rfl
example : jsonParse "\x7b\"a\": -3, \"b\": \"x\"\x7d" =
    Except.ok (Json.jobj [("a", Json.jnum (-3)), ("b", Json.jstr "x")]) := rfl
example : jsonParse "not json" = Except.error "Unexpected token in JSON" := rfl
example : jsonParse "undefined" = Except.error "Unexpected token in JSON" := rfl

example : (SubmitReview.handler Scenario.evOk Scenario.envOk Scenario.upstreamOk).1 =
    Except.ok ⟨200, SubmitReview.corsHeaders Scenario.envOk,
      Json.jobj [("message", Json.jstr "Review submitted successfully")]⟩ := rfl

example : (SubmitReview.handler Scenario.evOk Scenario.envOk Scenario.upstreamOk).2.updateArg =
    some [Json.jobj [("name", Json.jstr "Jo"), ("text", Json.jstr "Great product"),
      ("stars", Json.jnum 5), ("status", Json.jstr "pending"),
      ("date", Json.jstr "2026-01-01T00:00:00.000Z")]] := rfl

theorem truthyO_some (j : Json) : truthyO (some j) = truthy j := rfl

theorem truthy_jarr (l : List Json) : truthy (Json.jarr l) = true := rfl

/-- A digits-only productId is in particular a truthy string. -/
theorem truthy_of_isDigits {s : String} (h : isDigits s = true) :
    truthy (Json.jstr s) = true := by
  unfold isDigits at h
  unfold truthy
  cases hs : s.isEmpty with
  | true => rw [hs] at h; simp at h
  | false =>
    simp only [decide_eq_true_eq]
    intro he
    rw [he] at hs
    simp [String.isEmpty] at hs

/-- C1: the spec requires `sanitizeInput` to replace `<`, `>`, `"`, `'`, `&`
by their HTML entity escapes and trim; but the stored function maps each of
those characters to itself, so `"<script>alert(1)</script>"` is stored
unchanged and the raw angle brackets survive.  The claim is right about the
intent (the code's own comment says it reduces XSS) and the code as stored
is the bug. -/
theorem c1_sanitize_keeps_raw_angle_brackets :
    SubmitReview.sanitizeInput (Json.jstr "<script>alert(1)</script>") =
      Json.jstr "<script>alert(1)</script>" ∧
    '<' ∈ "<script>alert(1)</script>".data :=
  ⟨rfl, by decide⟩

/-- C2 counterexample: a submission identical to a fully successful one
except that `productId` is the JSON number `100` (the interface admits
string or number) is answered with 500 "An unexpected error occurred" —
`productId.match` throws on a number — not with the claimed 200. -/
theorem c2_numeric_productId_gets_500 :
    (SubmitReview.handler Scenario.evNumId Scenario.envOk Scenario.upstreamOk).1 =
      Except.ok ⟨500, SubmitReview.corsHeaders Scenario.envOk,
        Json.jobj [("error", Json.jstr "An unexpected error occurred"),
          ("details", Json.jstr "TypeError: productId.match is not a function")]⟩ := rfl

/-- C2 (amended): for every POST whose JSON body supplies `productId` as a
string of decimal digits together with truthy `name`, `text`,
`recaptchaResponse` and a `stars` value parsing into [1,5], when the
verification reports success and both platform calls succeed with no
reported errors, the handler returns 200 with the success message. -/
theorem c2_digit_productId_success
    (ev : Event) (e : SubmitReview.EnvVars) (u : Upstream) (payload : Json)
    (s : String) (nameV textV starsV rcV rd : Json) (sv : Option Json) (n : Int)
    (l : List Json) (ur : HttpResp) (ud : Json) (errsO : Option Json)
    (hm : ev.httpMethod = "POST")
    (hp : jsonParse (evBodyStr ev) = Except.ok payload)
    (hnn : payload.isNull = false)
    (hpid : jsGet payload "productId" = some (Json.jstr s))
    (hds : isDigits s = true)
    (hname : jsGet payload "name" = some nameV)
    (htname : truthy nameV = true)
    (htext : jsGet payload "text" = some textV)
    (httext : truthy textV = true)
    (hstars : jsGet payload "stars" = some starsV)
    (htstars : truthy starsV = true)
    (hrc : jsGet payload "recaptchaResponse" = some rcV)
    (htrc : truthy rcV = true)
    (hparse : jsParseInt (jsToString starsV) = some n)
    (h1 : 1 ≤ n) (h5 : n ≤ 5)
    (henv : SubmitReview.envVarsOk e = true)
    (hrcap : u.recaptcha = fun _ => Except.ok rd)
    (hsucc : jsGetE rd "success" = Except.ok sv)
    (htsv : truthyO sv = true)
    (hfetch : SubmitReview.fetchReviews (Json.jstr s) u = Except.ok (Json.jarr l))
    (huresp : u.updateResp = Except.ok ur)
    (hurok : ur.ok = true)
    (hubody : ur.jsonBody = Except.ok ud)
    (herr : jsGetE ud "errors" = Except.ok errsO)
    (hlen : jsLenGt0 errsO = false)
    (huerr : jsLenGt0 (jsChain (jsChain (jsGet ud "data") "metafieldsSet") "userErrors") = false) :
    (SubmitReview.handler ev e u).1 =
      Except.ok ⟨200, SubmitReview.corsHeaders e,
        Json.jobj [("message", Json.jstr "Review submitted successfully")]⟩ := by
  have hrange : ¬(n < 1 ∨ 5 < n) := by omega
  have hts : truthy (Json.jstr s) = true := truthy_of_isDigits hds
  simp only [SubmitReview.handler, SubmitReview.handlerAux, SubmitReview.updateReviews,
    hm, hp, hnn, hpid, hname, htext, hstars, hrc, hparse, hrange, henv, hrcap,
    hsucc, htsv, hfetch, huresp, hurok, hubody, herr, hlen, huerr, hds,
    truthyO_some, hts, htname, httext, htstars, htrc, jsOr, truthy_jarr, jsSpread,
    Option.getD, Bool.and_true, Bool.and_self, Bool.not_true, Bool.false_eq_true,
    if_false, if_true, ite_false, ite_true, String.reduceEq, reduceCtorEq,
    Bool.true_and, Bool.not_false, decide_False, decide_True, reduceIte,
    ne_eq, not_true, not_false_iff, not_false_eq_true]

/-- C2 witness: the amended theorem instantiated to a concrete fully valid
submission with `productId = "100"` and empty prior review list. -/
theorem c2_digit_productId_success_witness :
    (SubmitReview.handler Scenario.evOk Scenario.envOk Scenario.upstreamOk).1 =
      Except.ok ⟨200, SubmitReview.corsHeaders Scenario.envOk,
        Json.jobj [("message", Json.jstr "Review submitted successfully")]⟩ :=
  c2_digit_productId_success Scenario.evOk Scenario.envOk Scenario.upstreamOk
    (Json.jobj [("productId", Json.jstr "100"), ("name", Json.jstr "Jo"),
      ("text", Json.jstr "Great product"), ("stars", Json.jnum 5),
      ("recaptchaResponse", Json.jstr "tok")])
    "100" (Json.jstr "Jo") (Json.jstr "Great product") (Json.jnum 5)
    (Json.jstr "tok") Scenario.recaptchaOk (some (Json.jbool true)) 5 []
    ⟨true, 200, "OK", Except.ok Scenario.updateDataOk⟩ Scenario.updateDataOk
    none rfl rfl rfl rfl (by decide) rfl rfl rfl rfl rfl rfl rfl rfl rfl
    (by decide) (by decide) rfl rfl rfl rfl rfl rfl rfl rfl rfl rfl rfl
theorem handlerAux_fst_secret_indep (ev : Event) (cors : List (String × String)) (envOk : Bool)
    (u : Upstream) (s t : String)
    (hconst : ∀ u1 u2 : String, u.recaptcha u1 = u.recaptcha u2) :
    (SubmitReview.handlerAux ev cors envOk s u).1 =
      (SubmitReview.handlerAux ev cors envOk t u).1 := by
  unfold SubmitReview.handlerAux
  by_cases h1 : ev.httpMethod = "OPTIONS"
  · simp only [h1, reduceIte]
  · simp only [if_neg h1]
    by_cases h2 : ev.httpMethod = "POST"
    case neg =>
      simp only [if_pos (by exact fun hc => h2 hc : ev.httpMethod ≠ "POST")]
    case pos =>
      simp only [if_neg (by simp [h2] : ¬ev.httpMethod ≠ "POST")]
      cases hp : jsonParse (evBodyStr ev) with
      | error m => rfl
      | ok payload =>
        dsimp only []
        cases hn : payload.isNull with
        | true => simp only [hn, reduceIte]
        | false =>
          simp only [hn, Bool.false_eq_true, if_neg (fun h => h)]
          cases hreq : (!(truthyO (jsGet payload "productId") && truthyO (jsGet payload "name") &&
              truthyO (jsGet payload "text") && truthyO (jsGet payload "stars") &&
              truthyO (jsGet payload "recaptchaResponse"))) with
          | true => simp only [hreq, reduceIte]
          | false =>
            simp only [hreq, Bool.false_eq_true, if_neg (fun h => h)]
            cases hst : jsParseInt (jsToString ((jsGet payload "stars").getD Json.jnull)) with
            | none => rfl
            | some starsNum =>
              dsimp only []
              by_cases hr : starsNum < 1 ∨ 5 < starsNum
              · simp only [if_pos hr]
              · simp only [if_neg hr]
                cases envOk with
                | false => rfl
                | true =>
                  simp only [Bool.not_true, Bool.false_eq_true, if_neg (fun h => h)]
                  rw [hconst ("https://www.google.com/recaptcha/api/siteverify?secret=" ++ s ++
                      "&response=" ++ jsToString ((jsGet payload "recaptchaResponse").getD Json.jnull))
                    ("https://www.google.com/recaptcha/api/siteverify?secret=" ++ t ++
                      "&response=" ++ jsToString ((jsGet payload "recaptchaResponse").getD Json.jnull))]
                  cases hrc : u.recaptcha
                      ("https://www.google.com/recaptcha/api/siteverify?secret=" ++ t ++
                        "&response=" ++ jsToString ((jsGet payload "recaptchaResponse").getD Json.jnull)) with
                  | error m => rfl
                  | ok rd =>
                    dsimp only []
                    cases hsv : jsGetE rd "success" with
                    | error m => rfl
                    | ok sv =>
                      dsimp only []
                      cases htv : truthyO sv with
                      | false => rfl
                      | true =>
                        simp only [htv, Bool.not_true, Bool.false_eq_true,
                          if_neg (fun h => h)]
                        cases hf : SubmitReview.fetchReviews
                            ((jsGet payload "productId").getD Json.jnull) u with
                        | error m => rfl
                        | ok ex =>
                          dsimp only []
                          cases hsp : jsSpread (jsOr ex (Json.jarr [])) with
                          | error m => rfl
                          | ok l =>
                            dsimp only []
                            cases hup : SubmitReview.updateReviews
                                ((jsGet payload "productId").getD Json.jnull)
                                (l ++ [Json.jobj [("name",
                                  SubmitReview.sanitizeInput ((jsGet payload "name").getD Json.jnull)),
                                  ("text", SubmitReview.sanitizeInput ((jsGet payload "text").getD Json.jnull)),
                                  ("stars", Json.jnum starsNum), ("status", Json.jstr "pending"),
                                  ("date", Json.jstr u.now)]]) u with
                            | error m => rfl
                            | ok urr =>
                              dsimp only []
                              cases he2 : jsGetE urr "errors" with
                              | error m => rfl
                              | ok errsO =>
                                dsimp only []
                                cases hl : jsLenGt0 errsO with
                                | true => simp only [hl, reduceIte]
                                | false =>
                                  simp only [hl, Bool.false_eq_true, if_neg (fun h => h)]
                                  cases hl2 : jsLenGt0 (jsChain (jsChain (jsGet urr "data")
                                      "metafieldsSet") "userErrors") with
                                  | true => simp only [hl2, reduceIte]
                                  | false => rfl

set_option maxRecDepth 4000 in
/-- C3 counterexample: the bot-verification secret CAN appear in an HTTP
response.  The code embeds `RECAPTCHA_SECRET_KEY` in the verification URL
(line 109) and returns `error.message` verbatim as `details` when the
verification call fails (lines 127-133); node-fetch v2's transport failures
embed the full requested URL in that message, so the 500 "Failed to verify
reCAPTCHA" body carries the secret value as a substring of `details`. -/
theorem c3_secret_leaks_in_verify_failure_details :
    (SubmitReview.handler Scenario.evOk Scenario.envOk
        Scenario.upstreamVerifyNetFail).1 =
      Except.ok ⟨500, SubmitReview.corsHeaders Scenario.envOk,
        Json.jobj [("error", Json.jstr "Failed to verify reCAPTCHA"),
          ("details", Json.jstr "request to https://www.google.com/recaptcha/api/siteverify?secret=rc-secret-value&response=tok failed, reason: getaddrinfo ENOTFOUND www.google.com")]⟩ ∧
    "rc-secret-value".data <:+:
      "request to https://www.google.com/recaptcha/api/siteverify?secret=rc-secret-value&response=tok failed, reason: getaddrinfo ENOTFOUND www.google.com".data :=
  ⟨rfl, by decide⟩

/-- C3 (amended): the handler itself never writes the secret configuration
values (admin access token, reCAPTCHA secret) into a response — two
configurations agreeing on the allowed origin, the shop, and the truthiness
of both secrets produce identical responses for every request and every
upstream behavior whose verification outcome does not vary with the
requested URL.  The one leak channel is outside the handler's own text: the
verification call's failure message, echoed into `details` of the 500
"Failed to verify reCAPTCHA" response, embeds the secret-bearing URL when
the HTTP client reports the requested URL (as node-fetch v2 does). -/
theorem c3_secrets_never_in_response
    (ev : Event) (u : Upstream) (e1 e2 : SubmitReview.EnvVars)
    (hao : e1.ALLOWED_ORIGIN = e2.ALLOWED_ORIGIN)
    (htok : envTruthy e1.ADMIN_API_ACCESS_TOKEN = envTruthy e2.ADMIN_API_ACCESS_TOKEN)
    (hshop : e1.SHOP = e2.SHOP)
    (hsec : envTruthy e1.RECAPTCHA_SECRET_KEY = envTruthy e2.RECAPTCHA_SECRET_KEY)
    (hconst : ∀ u1 u2 : String, u.recaptcha u1 = u.recaptcha u2) :
    (SubmitReview.handler ev e1 u).1 = (SubmitReview.handler ev e2 u).1 := by
  unfold SubmitReview.handler
  have hc : SubmitReview.corsHeaders e1 = SubmitReview.corsHeaders e2 := by
    simp [SubmitReview.corsHeaders, SubmitReview.allowedOrigin, hao]
  have he : SubmitReview.envVarsOk e1 = SubmitReview.envVarsOk e2 := by
    simp [SubmitReview.envVarsOk, htok, hsec, hshop]
  rw [hc, he]
  exact handlerAux_fst_secret_indep ev (SubmitReview.corsHeaders e2)
    (SubmitReview.envVarsOk e2) u (envStr e1.RECAPTCHA_SECRET_KEY)
    (envStr e2.RECAPTCHA_SECRET_KEY) hconst

/-- C3 witness: two configurations with different secret values produce the
same response on a concrete valid submission whose verification outcome
ignores the URL. -/
theorem c3_secrets_never_in_response_witness :
    (SubmitReview.handler Scenario.evOk
      ⟨some "https://mamamary.io", some "2024-10", some "secret-value-A",
        some "token-value-A", some "example.myshopify.com"⟩ Scenario.upstreamOk).1 =
    (SubmitReview.handler Scenario.evOk
      ⟨some "https://mamamary.io", some "2024-10", some "secret-value-B",
        some "token-value-B", some "example.myshopify.com"⟩ Scenario.upstreamOk).1 :=
  c3_secrets_never_in_response Scenario.evOk Scenario.upstreamOk
    ⟨some "https://mamamary.io", some "2024-10", some "secret-value-A",
      some "token-value-A", some "example.myshopify.com"⟩
    ⟨some "https://mamamary.io", some "2024-10", some "secret-value-B",
      some "token-value-B", some "example.myshopify.com"⟩
    rfl rfl rfl rfl (fun _ _ => rfl)

theorem isNull_true {j : Json} (h : j.isNull = true) : j = Json.jnull := by
  cases j <;> simp [Json.isNull] at h ⊢
theorem handlerAux_total (ev : Event) (cors : List (String × String)) (envOk : Bool)
    (s : String) (u : Upstream)
    (hnn : parsesToNull (evBodyStr ev) = false) :
    respondsWithErrorKey (SubmitReview.handlerAux ev cors envOk s u).1 := by
  unfold SubmitReview.handlerAux
  by_cases h1 : ev.httpMethod = "OPTIONS"
  · simp only [h1, reduceIte]
    intro ha hb
    exact absurd rfl hb
  · simp only [if_neg h1]
    by_cases h2 : ev.httpMethod = "POST"
    case neg =>
      simp only [if_pos (by exact fun hc => h2 hc : ev.httpMethod ≠ "POST")]
      intro ha hb
      rfl
    case pos =>
      simp only [if_neg (by simp [h2] : ¬ev.httpMethod ≠ "POST")]
      cases hp : jsonParse (evBodyStr ev) with
      | error m =>
        intro ha hb
        rfl
      | ok payload =>
        dsimp only []
        cases hn : payload.isNull with
        | true =>
          simp only [hn, reduceIte]
          have hb2 := hnn
          simp only [parsesToNull, hp] at hb2
          rw [hn] at hb2
          exact Bool.noConfusion hb2
        | false =>
          simp only [hn, Bool.false_eq_true, if_neg (fun h => h)]
          cases hreq : (!(truthyO (jsGet payload "productId") && truthyO (jsGet payload "name") &&
              truthyO (jsGet payload "text") && truthyO (jsGet payload "stars") &&
              truthyO (jsGet payload "recaptchaResponse"))) with
          | true =>
            simp only [hreq, reduceIte]
            intro ha hb
            rfl
          | false =>
            simp only [hreq, Bool.false_eq_true, if_neg (fun h => h)]
            cases hst : jsParseInt (jsToString ((jsGet payload "stars").getD Json.jnull)) with
            | none =>
              intro ha hb
              rfl
            | some starsNum =>
              dsimp only []
              by_cases hr : starsNum < 1 ∨ 5 < starsNum
              · simp only [if_pos hr]
                intro ha hb
                rfl
              · simp only [if_neg hr]
                cases envOk with
                | false =>
                  intro ha hb
                  rfl
                | true =>
                  simp only [Bool.not_true, Bool.false_eq_true, if_neg (fun h => h)]
                  cases hrc : u.recaptcha
                      ("https://www.google.com/recaptcha/api/siteverify?secret=" ++ s ++
                        "&response=" ++ jsToString ((jsGet payload "recaptchaResponse").getD Json.jnull)) with
                  | error m =>
                    intro ha hb
                    rfl
                  | ok rd =>
                    dsimp only []
                    cases hsv : jsGetE rd "success" with
                    | error m =>
                      intro ha hb
                      rfl
                    | ok sv =>
                      dsimp only []
                      cases htv : truthyO sv with
                      | false =>
                        intro ha hb
                        rfl
                      | true =>
                        simp only [htv, Bool.not_true, Bool.false_eq_true,
                          if_neg (fun h => h)]
                        cases hf : SubmitReview.fetchReviews
                            ((jsGet payload "productId").getD Json.jnull) u with
                        | error m =>
                          intro ha hb
                          rfl
                        | ok ex =>
                          dsimp only []
                          cases hsp : jsSpread (jsOr ex (Json.jarr [])) with
                          | error m =>
                            intro ha hb
                            rfl
                          | ok l =>
                            dsimp only []
                            cases hup : SubmitReview.updateReviews
                                ((jsGet payload "productId").getD Json.jnull)
                                (l ++ [Json.jobj [("name",
                                  SubmitReview.sanitizeInput ((jsGet payload "name").getD Json.jnull)),
                                  ("text", SubmitReview.sanitizeInput ((jsGet payload "text").getD Json.jnull)),
                                  ("stars", Json.jnum starsNum), ("status", Json.jstr "pending"),
                                  ("date", Json.jstr u.now)]]) u with
                            | error m =>
                              intro ha hb
                              rfl
                            | ok urr =>
                              dsimp only []
                              cases he2 : jsGetE urr "errors" with
                              | error m =>
                                intro ha hb
                                rfl
                              | ok errsO =>
                                dsimp only []
                                cases hl : jsLenGt0 errsO with
                                | true =>
                                  simp only [hl, reduceIte]
                                  intro ha hb
                                  rfl
                                | false =>
                                  simp only [hl, Bool.false_eq_true, if_neg (fun h => h)]
                                  cases hl2 : jsLenGt0 (jsChain (jsChain (jsGet urr "data")
                                      "metafieldsSet") "userErrors") with
                                  | true =>
                                    simp only [hl2, reduceIte]
                                    intro ha hb
                                    rfl
                                  | false =>
                                    intro ha hb
                                    exact absurd rfl ha

theorem handler0_total (ev : Event) (e0 : EarlyRev.EnvVars0) (u0 : EarlyRev.Upstream0)
    (hnn : parsesToNull (evBodyStr ev) = false) :
    respondsWithErrorKey (EarlyRev.handler ev e0 u0) := by
  unfold EarlyRev.handler
  by_cases h1 : ev.httpMethod = "OPTIONS"
  · simp only [h1, reduceIte]
    intro ha hb
    exact absurd rfl hb
  · simp only [if_neg h1]
    by_cases h2 : ev.httpMethod = "POST"
    case neg =>
      simp only [if_pos (by exact fun hc => h2 hc : ev.httpMethod ≠ "POST")]
      intro ha hb
      rfl
    case pos =>
      simp only [if_neg (by simp [h2] : ¬ev.httpMethod ≠ "POST")]
      cases hp : jsonParse (evBodyStr ev) with
      | error m =>
        intro ha hb
        rfl
      | ok payload =>
        dsimp only []
        cases hn : payload.isNull with
        | true =>
          simp only [hn, reduceIte]
          have hb2 := hnn
          simp only [parsesToNull, hp] at hb2
          rw [hn] at hb2
          exact Bool.noConfusion hb2
        | false =>
          simp only [hn, Bool.false_eq_true, if_neg (fun h => h)]
          cases hreq : (!(truthyO (jsGet payload "productId") && truthyO (jsGet payload "name") &&
              truthyO (jsGet payload "text") && truthyO (jsGet payload "stars"))) with
          | true =>
            simp only [hreq, reduceIte]
            intro ha hb
            rfl
          | false =>
            simp only [hreq, Bool.false_eq_true, if_neg (fun h => h)]
            cases henv : (envTruthy e0.ADMIN_API_ACCESS_TOKEN && envTruthy e0.SHOP) with
            | false =>
              simp only [henv, Bool.not_false, reduceIte]
              intro ha hb
              rfl
            | true =>
              simp only [henv, Bool.not_true, Bool.false_eq_true, if_neg (fun h => h)]
              cases hf : EarlyRev.fetchReviews ((jsGet payload "productId").getD Json.jnull) u0 with
              | error m =>
                intro ha hb
                rfl
              | ok ex =>
                dsimp only []
                cases hsp : jsSpread (jsOr ex (Json.jarr [])) with
                | error m =>
                  intro ha hb
                  rfl
                | ok l =>
                  dsimp only []
                  cases hup : EarlyRev.updateReviews ((jsGet payload "productId").getD Json.jnull)
                      (l ++ [Json.jobj [("name", (jsGet payload "name").getD Json.jnull),
                        ("text", (jsGet payload "text").getD Json.jnull),
                        ("stars", (jsGet payload "stars").getD Json.jnull),
                        ("status", Json.jstr "pending"), ("date", Json.jstr u0.now)]]) u0 with
                  | error m =>
                    intro ha hb
                    rfl
                  | ok urr =>
                    dsimp only []
                    cases he2 : jsGetE urr "errors" with
                    | error m =>
                      intro ha hb
                      rfl
                    | ok errsO =>
                      dsimp only []
                      cases ht : truthyO errsO with
                      | true =>
                        simp only [ht, reduceIte]
                        intro ha hb
                        rfl
                      | false =>
                        simp only [ht, Bool.false_eq_true, if_neg (fun h => h)]
                        intro ha hb
                        exact absurd rfl ha

/-- C4 counterexample: a POST whose body is the JSON literal `null` parses
successfully, but destructuring the payload throws outside every try block,
so the hardened handler's promise rejects instead of returning a response. -/
theorem c4_null_body_unhandled :
    settledOk (SubmitReview.handler Scenario.evNullBody Scenario.envOk Scenario.upstreamOk).1 =
      false := rfl

/-- C4 (amended): for every incoming request whose body does not parse to
the JSON literal `null` (that one body makes the payload destructuring throw
unhandled in both revisions), the handler settles with an HTTP response, and
on every failure status that response's body contains an `error` key; this
holds for the hardened revision and the earliest revision alike. -/
theorem c4_total_response_with_error_key
    (ev : Event) (e : SubmitReview.EnvVars) (u : Upstream)
    (e0 : EarlyRev.EnvVars0) (u0 : EarlyRev.Upstream0)
    (hnn : parsesToNull (evBodyStr ev) = false) :
    respondsWithErrorKey (SubmitReview.handler ev e u).1 ∧
      respondsWithErrorKey (EarlyRev.handler ev e0 u0) :=
  ⟨handlerAux_total ev (SubmitReview.corsHeaders e) (SubmitReview.envVarsOk e)
    (envStr e.RECAPTCHA_SECRET_KEY) u hnn, handler0_total ev e0 u0 hnn⟩

/-- C4 witness: both revisions on a concrete valid submission. -/
theorem c4_total_response_with_error_key_witness :
    respondsWithErrorKey (SubmitReview.handler Scenario.evOk Scenario.envOk
      Scenario.upstreamOk).1 ∧
    respondsWithErrorKey (EarlyRev.handler Scenario.evOk Scenario.envOk0
      ⟨Except.ok Scenario.fetchDataEmpty, Except.ok Scenario.updateDataOk,
        "2026-01-01T00:00:00.000Z"⟩) :=
  c4_total_response_with_error_key Scenario.evOk Scenario.envOk Scenario.upstreamOk
    Scenario.envOk0
    ⟨Except.ok Scenario.fetchDataEmpty, Except.ok Scenario.updateDataOk,
      "2026-01-01T00:00:00.000Z"⟩ rfl

/-- C5 counterexample: the claim says `"3.7"` is rejected with 400 "Stars
must be a number between 1 and 5"; but `parseInt("3.7", 10)` is `3`, which
is in range, so the submission is accepted with 200 and stored with
`stars = 3`. -/
theorem c5_stars_3_7_accepted :
    respStatus (SubmitReview.handler Scenario.evStars37 Scenario.envOk
        Scenario.upstreamOk).1 = some 200 ∧
    (SubmitReview.handler Scenario.evStars37 Scenario.envOk
        Scenario.upstreamOk).2.updateArg =
      some [Json.jobj [("name", Json.jstr "Jo"), ("text", Json.jstr "Great product"),
        ("stars", Json.jnum 3), ("status", Json.jstr "pending"),
        ("date", Json.jstr "2026-01-01T00:00:00.000Z")]] :=
  ⟨rfl, rfl⟩

/-- C5 (amended): for every POST body passing the required-field check, if
`parseInt(stars, 10)` — which takes the longest leading digit prefix, so a
value such as `"3.7"` parses to `3` and is accepted — yields no integer or
an integer outside [1, 5], the response is 400 with error "Stars must be a
number between 1 and 5". -/
theorem c5_stars_parseInt_range
    (ev : Event) (e : SubmitReview.EnvVars) (u : Upstream) (payload : Json)
    (hm : ev.httpMethod = "POST")
    (hp : jsonParse (evBodyStr ev) = Except.ok payload)
    (hnn : payload.isNull = false)
    (hreq : (truthyO (jsGet payload "productId") && truthyO (jsGet payload "name") &&
      truthyO (jsGet payload "text") && truthyO (jsGet payload "stars") &&
      truthyO (jsGet payload "recaptchaResponse")) = true)
    (hbad : match jsParseInt (jsToString ((jsGet payload "stars").getD Json.jnull)) with
      | none => True
      | some n => n < 1 ∨ 5 < n) :
    (SubmitReview.handler ev e u).1 =
      Except.ok ⟨400, SubmitReview.corsHeaders e,
        Json.jobj [("error", Json.jstr "Stars must be a number between 1 and 5")]⟩ := by
  unfold SubmitReview.handler SubmitReview.handlerAux
  simp only [hm, hp, hnn, hreq, Bool.not_true, Bool.false_eq_true, reduceIte, ne_eq,
    not_true, not_false_eq_true, String.reduceEq, if_false, if_true, ite_false,
    ite_true, decide_False, decide_True, if_neg (fun h => h : ¬False)]
  cases hst : jsParseInt (jsToString ((jsGet payload "stars").getD Json.jnull)) with
  | none => rfl
  | some n =>
    simp only [hst] at hbad
    dsimp only []
    simp only [if_pos hbad]

/-- C5 witness: the spec's own example `stars = 6` is rejected with the
stars range error. -/
theorem c5_stars_parseInt_range_witness :
    (SubmitReview.handler Scenario.evStars6 Scenario.envOk Scenario.upstreamOk).1 =
      Except.ok ⟨400, SubmitReview.corsHeaders Scenario.envOk,
        Json.jobj [("error", Json.jstr "Stars must be a number between 1 and 5")]⟩ :=
  c5_stars_parseInt_range Scenario.evStars6 Scenario.envOk Scenario.upstreamOk
    (Json.jobj [("productId", Json.jstr "100"), ("name", Json.jstr "Jo"),
      ("text", Json.jstr "Great product"), ("stars", Json.jnum 6),
      ("recaptchaResponse", Json.jstr "tok")])
    rfl rfl rfl rfl (Or.inr (by decide))

/-- C6: for every accepted submission (validations pass, verification
succeeds, and the Reader yields the list `l`), the Review Store Writer is
invoked with exactly `l` followed by one new record built from the sanitized
name/text, the parsed integer stars, the fixed "pending" status, and the
server-assigned timestamp; the fetched entries are passed through unchanged
and in order, with the new entry appended last. -/
theorem c6_writer_gets_appended_list
    (ev : Event) (e : SubmitReview.EnvVars) (u : Upstream) (payload : Json)
    (s : String) (nameV textV starsV rcV rd : Json) (sv : Option Json) (n : Int)
    (l : List Json)
    (hm : ev.httpMethod = "POST")
    (hp : jsonParse (evBodyStr ev) = Except.ok payload)
    (hnn : payload.isNull = false)
    (hpid : jsGet payload "productId" = some (Json.jstr s))
    (hds : isDigits s = true)
    (hname : jsGet payload "name" = some nameV)
    (htname : truthy nameV = true)
    (htext : jsGet payload "text" = some textV)
    (httext : truthy textV = true)
    (hstars : jsGet payload "stars" = some starsV)
    (htstars : truthy starsV = true)
    (hrc : jsGet payload "recaptchaResponse" = some rcV)
    (htrc : truthy rcV = true)
    (hparse : jsParseInt (jsToString starsV) = some n)
    (h1 : 1 ≤ n) (h5 : n ≤ 5)
    (henv : SubmitReview.envVarsOk e = true)
    (hrcap : u.recaptcha = fun _ => Except.ok rd)
    (hsucc : jsGetE rd "success" = Except.ok sv)
    (htsv : truthyO sv = true)
    (hfetch : SubmitReview.fetchReviews (Json.jstr s) u = Except.ok (Json.jarr l)) :
    (SubmitReview.handler ev e u).2.updateArg =
      some (l ++ [Json.jobj [("name", SubmitReview.sanitizeInput nameV),
        ("text", SubmitReview.sanitizeInput textV), ("stars", Json.jnum n),
        ("status", Json.jstr "pending"), ("date", Json.jstr u.now)]]) := by
  have hrange : ¬(n < 1 ∨ 5 < n) := by omega
  have hts : truthy (Json.jstr s) = true := truthy_of_isDigits hds
  unfold SubmitReview.handler SubmitReview.handlerAux
  simp only [hm, hp, hnn, hpid, hname, htext, hstars, hrc, hparse, hrange, henv,
    hrcap, hsucc, htsv, hfetch, truthyO_some, hts, htname, httext, htstars, htrc,
    jsOr, truthy_jarr, jsSpread, Option.getD, Bool.and_true, Bool.and_self,
    Bool.not_true, Bool.false_eq_true, if_false, if_true, ite_false, ite_true,
    String.reduceEq, reduceCtorEq, Bool.true_and, Bool.not_false, decide_False,
    decide_True, reduceIte, ne_eq, not_true, not_false_iff, not_false_eq_true]
  cases hup : SubmitReview.updateReviews (Json.jstr s)
      (l ++ [Json.jobj [("name", SubmitReview.sanitizeInput nameV),
        ("text", SubmitReview.sanitizeInput textV), ("stars", Json.jnum n),
        ("status", Json.jstr "pending"), ("date", Json.jstr u.now)]]) u with
  | error m => rfl
  | ok urr =>
    dsimp only []
    cases he2 : jsGetE urr "errors" with
    | error m => rfl
    | ok errsO =>
      dsimp only []
      cases hl : jsLenGt0 errsO with
      | true => simp only [hl, reduceIte]
      | false =>
        simp only [hl, Bool.false_eq_true, if_neg (fun h => h)]
        cases hl2 : jsLenGt0 (jsChain (jsChain (jsGet urr "data")
            "metafieldsSet") "userErrors") with
        | true => simp only [hl2, reduceIte]
        | false => rfl

/-- C6 witness: with two stored reviews, the Writer receives a three-element
list — the two stored entries unchanged and in order, the new entry last. -/
theorem c6_writer_gets_appended_list_witness :
    (SubmitReview.handler Scenario.evOk Scenario.envOk Scenario.upstreamTwo).2.updateArg =
      some ([Json.jobj [("name", Json.jstr "A"), ("stars", Json.jnum 4)],
        Json.jobj [("name", Json.jstr "B"), ("stars", Json.jnum 2)]] ++
        [Json.jobj [("name", SubmitReview.sanitizeInput (Json.jstr "Jo")),
          ("text", SubmitReview.sanitizeInput (Json.jstr "Great product")),
          ("stars", Json.jnum 5), ("status", Json.jstr "pending"),
          ("date", Json.jstr "2026-01-01T00:00:00.000Z")]]) :=
  c6_writer_gets_appended_list Scenario.evOk Scenario.envOk Scenario.upstreamTwo
    (Json.jobj [("productId", Json.jstr "100"), ("name", Json.jstr "Jo"),
      ("text", Json.jstr "Great product"), ("stars", Json.jnum 5),
      ("recaptchaResponse", Json.jstr "tok")])
    "100" (Json.jstr "Jo") (Json.jstr "Great product") (Json.jnum 5)
    (Json.jstr "tok") Scenario.recaptchaOk (some (Json.jbool true)) 5
    [Json.jobj [("name", Json.jstr "A"), ("stars", Json.jnum 4)],
      Json.jobj [("name", Json.jstr "B"), ("stars", Json.jnum 2)]]
    rfl rfl rfl rfl (by decide) rfl rfl rfl rfl rfl rfl rfl rfl rfl
    (by decide) (by decide) rfl rfl rfl rfl rfl

/-- C7 counterexample: in the earliest revision the mutation shape in use is
`metafieldUpsert`, and its handler checks only `updateResult.errors`: a
write response with a non-empty `userErrors` list under
`data.metafieldUpsert` is answered with 200 and the success message, not the
claimed 500. -/
theorem c7_upsert_userErrors_ignored :
    EarlyRev.handler Scenario.evOk Scenario.envOk0 Scenario.upstream0UserErrors =
      Except.ok ⟨200, EarlyRev.corsHeaders,
        Json.jobj [("message", Json.jstr "Review submitted successfully")]⟩ := rfl

/-- C7 (amended): in the hardened revision (`metafieldsSet` shape), when the
Writer's response carries no top-level `errors` list but a non-empty
`userErrors` list under `data.metafieldsSet`, the handler returns 500 with
error "Failed to update reviews" and `details` equal to that list, and the
success message is not returned; the earliest revision does not inspect the
upsert shape's `userErrors` at all. -/
theorem c7_metafieldsSet_userErrors_500
    (ev : Event) (e : SubmitReview.EnvVars) (u : Upstream) (payload : Json)
    (s : String) (nameV textV starsV rcV rd : Json) (sv : Option Json) (n : Int)
    (l : List Json) (ur : HttpResp) (ud : Json) (errsO : Option Json) (us : List Json)
    (hm : ev.httpMethod = "POST")
    (hp : jsonParse (evBodyStr ev) = Except.ok payload)
    (hnn : payload.isNull = false)
    (hpid : jsGet payload "productId" = some (Json.jstr s))
    (hds : isDigits s = true)
    (hname : jsGet payload "name" = some nameV)
    (htname : truthy nameV = true)
    (htext : jsGet payload "text" = some textV)
    (httext : truthy textV = true)
    (hstars : jsGet payload "stars" = some starsV)
    (htstars : truthy starsV = true)
    (hrc : jsGet payload "recaptchaResponse" = some rcV)
    (htrc : truthy rcV = true)
    (hparse : jsParseInt (jsToString starsV) = some n)
    (h1 : 1 ≤ n) (h5 : n ≤ 5)
    (henv : SubmitReview.envVarsOk e = true)
    (hrcap : u.recaptcha = fun _ => Except.ok rd)
    (hsucc : jsGetE rd "success" = Except.ok sv)
    (htsv : truthyO sv = true)
    (hfetch : SubmitReview.fetchReviews (Json.jstr s) u = Except.ok (Json.jarr l))
    (huresp : u.updateResp = Except.ok ur)
    (hurok : ur.ok = true)
    (hubody : ur.jsonBody = Except.ok ud)
    (herr : jsGetE ud "errors" = Except.ok errsO)
    (hlen : jsLenGt0 errsO = false)
    (huerr : jsChain (jsChain (jsGet ud "data") "metafieldsSet") "userErrors" =
      some (Json.jarr us))
    (hne : us ≠ []) :
    (SubmitReview.handler ev e u).1 =
      Except.ok ⟨500, SubmitReview.corsHeaders e,
        Json.jobj [("error", Json.jstr "Failed to update reviews"),
          ("details", Json.jarr us)]⟩ := by
  have hrange : ¬(n < 1 ∨ 5 < n) := by omega
  have hts : truthy (Json.jstr s) = true := truthy_of_isDigits hds
  have hulen : jsLenGt0 (some (Json.jarr us)) = true := by
    simp [jsLenGt0, List.length_pos, hne]
  simp only [SubmitReview.handler, SubmitReview.handlerAux, SubmitReview.updateReviews,
    hm, hp, hnn, hpid, hname, htext, hstars, hrc, hparse, hrange, henv, hrcap,
    hsucc, htsv, hfetch, huresp, hurok, hubody, herr, hlen, huerr, hulen, hds,
    truthyO_some, hts, htname, httext, htstars, htrc, jsOr, truthy_jarr, jsSpread,
    Option.getD, Bool.and_true, Bool.and_self, Bool.not_true, Bool.false_eq_true,
    if_false, if_true, ite_false, ite_true, String.reduceEq, reduceCtorEq,
    Bool.true_and, Bool.not_false, decide_False, decide_True, reduceIte,
    ne_eq, not_true, not_false_iff, not_false_eq_true]

/-- C7 witness: a concrete valid submission whose metafieldsSet response
carries one user error yields the 500 with that list as details. -/
theorem c7_metafieldsSet_userErrors_500_witness :
    (SubmitReview.handler Scenario.evOk Scenario.envOk Scenario.upstreamSetUserErrors).1 =
      Except.ok ⟨500, SubmitReview.corsHeaders Scenario.envOk,
        Json.jobj [("error", Json.jstr "Failed to update reviews"),
          ("details", Json.jarr [Json.jobj [("field", Json.jstr "value"),
            ("message", Json.jstr "Invalid metafield value")]])]⟩ :=
  c7_metafieldsSet_userErrors_500 Scenario.evOk Scenario.envOk
    Scenario.upstreamSetUserErrors
    (Json.jobj [("productId", Json.jstr "100"), ("name", Json.jstr "Jo"),
      ("text", Json.jstr "Great product"), ("stars", Json.jnum 5),
      ("recaptchaResponse", Json.jstr "tok")])
    "100" (Json.jstr "Jo") (Json.jstr "Great product") (Json.jnum 5)
    (Json.jstr "tok") Scenario.recaptchaOk (some (Json.jbool true)) 5 []
    ⟨true, 200, "OK", Except.ok Scenario.updateDataSetUserErrors⟩
    Scenario.updateDataSetUserErrors none
    [Json.jobj [("field", Json.jstr "value"), ("message", Json.jstr "Invalid metafield value")]]
    rfl rfl rfl rfl (by decide) rfl rfl rfl rfl rfl rfl rfl rfl rfl
    (by decide) (by decide) rfl rfl rfl rfl rfl rfl rfl rfl rfl rfl rfl
    (List.cons_ne_nil _ _)

/-- C8: for every POST passing input and configuration validation, if the
verification service responds with `success: false`, the handler returns
400 with error "reCAPTCHA verification failed" and `details` equal to the
verifier's `error-codes` value when present (falling back to the generic
message when absent or falsy), and neither the Review Store Reader nor the
Review Store Writer is invoked. -/
theorem c8_recaptcha_failure_400
    (ev : Event) (e : SubmitReview.EnvVars) (u : Upstream) (payload : Json)
    (nameV textV starsV rcV pidV rd : Json) (n : Int)
    (hm : ev.httpMethod = "POST")
    (hp : jsonParse (evBodyStr ev) = Except.ok payload)
    (hnn : payload.isNull = false)
    (hpid : jsGet payload "productId" = some pidV)
    (htpid : truthy pidV = true)
    (hname : jsGet payload "name" = some nameV)
    (htname : truthy nameV = true)
    (htext : jsGet payload "text" = some textV)
    (httext : truthy textV = true)
    (hstars : jsGet payload "stars" = some starsV)
    (htstars : truthy starsV = true)
    (hrc : jsGet payload "recaptchaResponse" = some rcV)
    (htrc : truthy rcV = true)
    (hparse : jsParseInt (jsToString starsV) = some n)
    (h1 : 1 ≤ n) (h5 : n ≤ 5)
    (henv : SubmitReview.envVarsOk e = true)
    (hrcap : u.recaptcha = fun _ => Except.ok rd)
    (hsucc : jsGet rd "success" = some (Json.jbool false)) :
    (SubmitReview.handler ev e u).1 =
      Except.ok ⟨400, SubmitReview.corsHeaders e,
        Json.jobj [("error", Json.jstr "reCAPTCHA verification failed"),
          ("details", jsOrU (jsGet rd "error-codes")
            (Json.jstr "Invalid reCAPTCHA response"))]⟩ ∧
    (SubmitReview.handler ev e u).2.fetchCalled = false ∧
    (SubmitReview.handler ev e u).2.updateArg = none := by
  have hrange : ¬(n < 1 ∨ 5 < n) := by omega
  have hsuccE : jsGetE rd "success" = Except.ok (some (Json.jbool false)) := by
    cases rd <;> simp_all [jsGetE, jsGet]
  have hfalse : truthyO (some (Json.jbool false)) = false := rfl
  refine ⟨?_, ?_, ?_⟩ <;>
    simp only [SubmitReview.handler, SubmitReview.handlerAux, hm, hp, hnn, hpid,
      hname, htext, hstars, hrc, hparse, hrange, henv, hrcap, hsuccE, hfalse,
      truthyO_some, htpid, htname, httext, htstars, htrc, Option.getD,
      Bool.and_true, Bool.and_self, Bool.not_true, Bool.not_false,
      Bool.false_eq_true, if_false, if_true, ite_false, ite_true, String.reduceEq,
      reduceCtorEq, Bool.true_and, decide_False, decide_True, reduceIte, ne_eq,
      not_true, not_false_iff, not_false_eq_true]

/-- C8 witness: the spec's example — a verification response with
`success: false` and error code "invalid-input-response" — yields the 400
with that code in `details` and no platform call. -/
theorem c8_recaptcha_failure_400_witness :
    (SubmitReview.handler Scenario.evOk Scenario.envOk
        Scenario.upstreamRecaptchaFail).1 =
      Except.ok ⟨400, SubmitReview.corsHeaders Scenario.envOk,
        Json.jobj [("error", Json.jstr "reCAPTCHA verification failed"),
          ("details", Json.jarr [Json.jstr "invalid-input-response"])]⟩ ∧
    (SubmitReview.handler Scenario.evOk Scenario.envOk
        Scenario.upstreamRecaptchaFail).2.fetchCalled = false ∧
    (SubmitReview.handler Scenario.evOk Scenario.envOk
        Scenario.upstreamRecaptchaFail).2.updateArg = none :=
  c8_recaptcha_failure_400 Scenario.evOk Scenario.envOk Scenario.upstreamRecaptchaFail
    (Json.jobj [("productId", Json.jstr "100"), ("name", Json.jstr "Jo"),
      ("text", Json.jstr "Great product"), ("stars", Json.jnum 5),
      ("recaptchaResponse", Json.jstr "tok")])
    (Json.jstr "Jo") (Json.jstr "Great product") (Json.jnum 5) (Json.jstr "tok")
    (Json.jstr "100") Scenario.recaptchaFail 5
    rfl rfl rfl rfl rfl rfl rfl rfl rfl rfl rfl rfl rfl rfl
    (by decide) (by decide) rfl rfl rfl

/-- C9 counterexample: the claim covers every POST whose JSON body parses
successfully; the body `null` parses successfully and all required fields
are missing, yet the earliest revision's handler does not answer 400
"Missing required fields" — its payload destructuring throws and the
invocation rejects unhandled. -/
theorem c9_null_body_throws_in_early_revision :
    settledOk (EarlyRev.handler Scenario.evNullBody Scenario.envOk0
      ⟨Except.ok Scenario.fetchDataEmpty, Except.ok Scenario.updateDataOk,
        "2026-01-01T00:00:00.000Z"⟩) = false := rfl

/-- C9 (amended): for every POST whose JSON body parses successfully to
anything other than the literal `null`, if the truthiness conjunction of the
required fields fails — `productId`, `name`, `text`, `stars`, plus
`recaptchaResponse` in the hardened revision — the response is 400 with
error "Missing required fields"; in particular `stars = 0` is falsy and
rejected although structurally present. -/
theorem c9_missing_fields_400
    (ev : Event) (e : SubmitReview.EnvVars) (u : Upstream)
    (e0 : EarlyRev.EnvVars0) (u0 : EarlyRev.Upstream0) (payload : Json)
    (hm : ev.httpMethod = "POST")
    (hp : jsonParse (evBodyStr ev) = Except.ok payload)
    (hnn : payload.isNull = false) :
    ((truthyO (jsGet payload "productId") && truthyO (jsGet payload "name") &&
      truthyO (jsGet payload "text") && truthyO (jsGet payload "stars") &&
      truthyO (jsGet payload "recaptchaResponse")) = false →
      (SubmitReview.handler ev e u).1 =
        Except.ok ⟨400, SubmitReview.corsHeaders e,
          Json.jobj [("error", Json.jstr "Missing required fields")]⟩) ∧
    ((truthyO (jsGet payload "productId") && truthyO (jsGet payload "name") &&
      truthyO (jsGet payload "text") && truthyO (jsGet payload "stars")) = false →
      EarlyRev.handler ev e0 u0 =
        Except.ok ⟨400, EarlyRev.corsHeaders,
          Json.jobj [("error", Json.jstr "Missing required fields")]⟩) := by
  constructor <;> intro hreq <;>
    simp only [SubmitReview.handler, SubmitReview.handlerAux, EarlyRev.handler,
      hm, hp, hnn, hreq, Bool.not_false, Bool.false_eq_true, if_false, if_true,
      ite_false, ite_true, String.reduceEq, reduceCtorEq, decide_False,
      decide_True, reduceIte, ne_eq, not_true, not_false_iff, not_false_eq_true]

/-- C9 witness: the spec's own boundary example `stars = 0` is rejected with
"Missing required fields" by both revisions. -/
theorem c9_missing_fields_400_witness :
    (SubmitReview.handler Scenario.evStars0 Scenario.envOk Scenario.upstreamOk).1 =
      Except.ok ⟨400, SubmitReview.corsHeaders Scenario.envOk,
        Json.jobj [("error", Json.jstr "Missing required fields")]⟩ ∧
    EarlyRev.handler Scenario.evStars0 Scenario.envOk0
      ⟨Except.ok Scenario.fetchDataEmpty, Except.ok Scenario.updateDataOk,
        "2026-01-01T00:00:00.000Z"⟩ =
      Except.ok ⟨400, EarlyRev.corsHeaders,
        Json.jobj [("error", Json.jstr "Missing required fields")]⟩ :=
  ⟨(c9_missing_fields_400 Scenario.evStars0 Scenario.envOk Scenario.upstreamOk
      Scenario.envOk0
      ⟨Except.ok Scenario.fetchDataEmpty, Except.ok Scenario.updateDataOk,
        "2026-01-01T00:00:00.000Z"⟩
      (Json.jobj [("productId", Json.jstr "100"), ("name", Json.jstr "Jo"),
        ("text", Json.jstr "Great product"), ("stars", Json.jnum 0),
        ("recaptchaResponse", Json.jstr "tok")])
      rfl rfl rfl).1 rfl,
   (c9_missing_fields_400 Scenario.evStars0 Scenario.envOk Scenario.upstreamOk
      Scenario.envOk0
      ⟨Except.ok Scenario.fetchDataEmpty, Except.ok Scenario.updateDataOk,
        "2026-01-01T00:00:00.000Z"⟩
      (Json.jobj [("productId", Json.jstr "100"), ("name", Json.jstr "Jo"),
        ("text", Json.jstr "Great product"), ("stars", Json.jnum 0),
        ("recaptchaResponse", Json.jstr "tok")])
      rfl rfl rfl).2 rfl⟩

/-- C10 counterexample: a stored metafield value of `"null"` is valid JSON
decoding to a non-array, yet the submission is accepted with 200 and the
Writer IS invoked (with just the new review): `null || []` replaces the
decoded value by the empty list instead of failing. -/
theorem c10_null_stored_value_accepted :
    respStatus (SubmitReview.handler Scenario.evOk Scenario.envOk
        Scenario.upstreamNullValue).1 = some 200 ∧
    (SubmitReview.handler Scenario.evOk Scenario.envOk
        Scenario.upstreamNullValue).2.updateArg =
      some [Json.jobj [("name", Json.jstr "Jo"), ("text", Json.jstr "Great product"),
        ("stars", Json.jnum 5), ("status", Json.jstr "pending"),
        ("date", Json.jstr "2026-01-01T00:00:00.000Z")]] :=
  ⟨rfl, rfl⟩

/-- C10 (amended): in the hardened revision, if the product's existing
`custom.reviews` metafield value is present (a non-empty string) and either
is not valid JSON text or decodes to a truthy value whose spread fails (an
object, a nonzero number, or `true` — not an array, not a string, not a
falsy value such as `null`), then every otherwise-valid submission returns
500 "An unexpected error occurred" and the Review Store Writer is never
invoked, while the Reader was; falsy decodes such as `null` are instead
treated as an empty list and accepted. -/
theorem c10_bad_stored_value_500
    (ev : Event) (e : SubmitReview.EnvVars) (u : Upstream) (payload : Json)
    (s vs : String) (nameV textV starsV rcV rd fd : Json) (sv : Option Json)
    (n : Int) (fr : HttpResp)
    (hm : ev.httpMethod = "POST")
    (hp : jsonParse (evBodyStr ev) = Except.ok payload)
    (hnn : payload.isNull = false)
    (hpid : jsGet payload "productId" = some (Json.jstr s))
    (hds : isDigits s = true)
    (hname : jsGet payload "name" = some nameV)
    (htname : truthy nameV = true)
    (htext : jsGet payload "text" = some textV)
    (httext : truthy textV = true)
    (hstars : jsGet payload "stars" = some starsV)
    (htstars : truthy starsV = true)
    (hrc : jsGet payload "recaptchaResponse" = some rcV)
    (htrc : truthy rcV = true)
    (hparse : jsParseInt (jsToString starsV) = some n)
    (h1 : 1 ≤ n) (h5 : n ≤ 5)
    (henv : SubmitReview.envVarsOk e = true)
    (hrcap : u.recaptcha = fun _ => Except.ok rd)
    (hsucc : jsGetE rd "success" = Except.ok sv)
    (htsv : truthyO sv = true)
    (hfr : u.fetchResp = Except.ok fr)
    (hfrok : fr.ok = true)
    (hfd : fr.jsonBody = Except.ok fd)
    (hmv : jsChain (jsChain (jsChain (jsChain (some fd) "data") "product")
      "metafield") "value" = some (Json.jstr vs))
    (hvs : vs ≠ "")
    (hbad : (∃ m, jsonParse vs = Except.error m) ∨
      (∃ v, jsonParse vs = Except.ok v ∧ truthy v = true ∧
        ∃ m2, jsSpread v = Except.error m2)) :
    (∃ d, (SubmitReview.handler ev e u).1 =
      Except.ok ⟨500, SubmitReview.corsHeaders e,
        Json.jobj [("error", Json.jstr "An unexpected error occurred"),
          ("details", Json.jstr d)]⟩) ∧
    (SubmitReview.handler ev e u).2.updateArg = none ∧
    (SubmitReview.handler ev e u).2.fetchCalled = true := by
  have hrange : ¬(n < 1 ∨ 5 < n) := by omega
  have hts : truthy (Json.jstr s) = true := truthy_of_isDigits hds
  have htvs : truthyO (some (Json.jstr vs)) = true := by simp [truthyO, truthy, hvs]
  rcases hbad with ⟨m, hjm⟩ | ⟨v, hjv, htv, m2, hsp⟩
  · have hfetch : SubmitReview.fetchReviews (Json.jstr s) u = Except.error m := by
      simp only [SubmitReview.fetchReviews, hds, hfr, hfrok, hfd, hmv, htvs,
        jsonParseValue, jsToString, Option.getD, Bool.not_true, Bool.false_eq_true,
        if_false, if_true, ite_false, ite_true, reduceIte]
      exact hjm
    refine ⟨⟨m, ?_⟩, ?_, ?_⟩ <;>
      simp only [SubmitReview.handler, SubmitReview.handlerAux, hm, hp, hnn, hpid,
        hname, htext, hstars, hrc, hparse, hrange, henv, hrcap, hsucc, htsv,
        hfetch, truthyO_some, hts, htname, httext, htstars, htrc, Option.getD,
        Bool.and_true, Bool.and_self, Bool.not_true, Bool.false_eq_true, if_false,
        if_true, ite_false, ite_true, String.reduceEq, reduceCtorEq, Bool.true_and,
        Bool.not_false, decide_False, decide_True, reduceIte, ne_eq, not_true,
        not_false_iff, not_false_eq_true]
  · have hfetch : SubmitReview.fetchReviews (Json.jstr s) u = Except.ok v := by
      simp only [SubmitReview.fetchReviews, hds, hfr, hfrok, hfd, hmv, htvs,
        jsonParseValue, jsToString, Option.getD, Bool.not_true, Bool.false_eq_true,
        if_false, if_true, ite_false, ite_true, reduceIte]
      exact hjv
    have hor : jsOr v (Json.jarr []) = v := by simp [jsOr, htv]
    refine ⟨⟨m2, ?_⟩, ?_, ?_⟩ <;>
      simp only [SubmitReview.handler, SubmitReview.handlerAux, hm, hp, hnn, hpid,
        hname, htext, hstars, hrc, hparse, hrange, henv, hrcap, hsucc, htsv,
        hfetch, hor, hsp, truthyO_some, hts, htname, httext, htstars, htrc,
        Option.getD, Bool.and_true, Bool.and_self, Bool.not_true,
        Bool.false_eq_true, if_false, if_true, ite_false, ite_true,
        String.reduceEq, reduceCtorEq, Bool.true_and, Bool.not_false,
        decide_False, decide_True, reduceIte, ne_eq, not_true, not_false_iff,
        not_false_eq_true]

/-- C10 witness: a stored value of `"not json"` yields the 500 with the
Writer never invoked and the Reader invoked. -/
theorem c10_bad_stored_value_500_witness :
    (∃ d, (SubmitReview.handler Scenario.evOk Scenario.envOk
        Scenario.upstreamBadValue).1 =
      Except.ok ⟨500, SubmitReview.corsHeaders Scenario.envOk,
        Json.jobj [("error", Json.jstr "An unexpected error occurred"),
          ("details", Json.jstr d)]⟩) ∧
    (SubmitReview.handler Scenario.evOk Scenario.envOk
        Scenario.upstreamBadValue).2.updateArg = none ∧
    (SubmitReview.handler Scenario.evOk Scenario.envOk
        Scenario.upstreamBadValue).2.fetchCalled = true :=
  c10_bad_stored_value_500 Scenario.evOk Scenario.envOk Scenario.upstreamBadValue
    (Json.jobj [("productId", Json.jstr "100"), ("name", Json.jstr "Jo"),
      ("text", Json.jstr "Great product"), ("stars", Json.jnum 5),
      ("recaptchaResponse", Json.jstr "tok")])
    "100" "not json" (Json.jstr "Jo") (Json.jstr "Great product") (Json.jnum 5)
    (Json.jstr "tok") Scenario.recaptchaOk Scenario.fetchDataBadValue
    (some (Json.jbool true)) 5
    ⟨true, 200, "OK", Except.ok Scenario.fetchDataBadValue⟩
    rfl rfl rfl rfl (by decide) rfl rfl rfl rfl rfl rfl rfl rfl rfl
    (by decide) (by decide) rfl rfl rfl rfl rfl rfl rfl rfl (by decide)
    (Or.inl ⟨"Unexpected token in JSON", rfl⟩)
